import Mathlib

/-!
# Verification of the deeptone-bot rank and payment core

Shallow embedding of the rank engine (`src/utils.py`), the payment
calculator (`src/utils.py`), and the video/creator lifecycle operations
(`src/database.py`, with the guard logic of the chat commands from
`src/bot.py`).  Python `datetime` values are modelled as integers counting
seconds; `timedelta(hours=48)` becomes the constant `48 * 3600`.
Python `float` payment fields only ever hold sums of small integer tier
amounts, so they are modelled as `Int`.
-/

namespace DeepTone

/-- Creator rank tiers based on lifetime views (`CreatorRank` in `src/utils.py`). -/
inductive CreatorRank where
  | SUB5
  | LTN
  | MTN
  | HTN
  | CHADLITE
  | CHAD
deriving DecidableEq, Repr, BEq

open CreatorRank

/-- Ordered list of ranks for progression (`RANK_ORDER` in `src/utils.py`). -/
def RANK_ORDER : List CreatorRank := [SUB5, LTN, MTN, HTN, CHADLITE, CHAD]

/-- Rank thresholds: lifetime views needed to unlock (`RANK_THRESHOLDS`). -/
def RANK_THRESHOLDS : CreatorRank → Int
  | SUB5 => 0
  | LTN => 100000
  | MTN => 300000
  | HTN => 750000
  | CHADLITE => 2000000
  | CHAD => 5000000

/-- Per-video payout tiers by rank: list of (view_threshold, payment_amount)
(`RANK_PAYOUT_TIERS` in `src/utils.py`). -/
def RANK_PAYOUT_TIERS : CreatorRank → List (Int × Int)
  | SUB5 => [(20000, 20)]
  | LTN => [(20000, 20), (100000, 20)]
  | MTN => [(20000, 20), (100000, 25), (500000, 30)]
  | HTN => [(20000, 20), (100000, 25), (500000, 45), (1000000, 40)]
  | CHADLITE => [(20000, 20), (100000, 25), (500000, 45), (1000000, 60)]
  | CHAD => [(20000, 20), (100000, 30), (500000, 50), (1000000, 75)]

/-- Per-video caps by rank (`RANK_CAPS` in `src/utils.py`). -/
def RANK_CAPS : CreatorRank → Int
  | SUB5 => 20
  | LTN => 40
  | MTN => 75
  | HTN => 130
  | CHADLITE => 150
  | CHAD => 175

/-- Position of a rank in `RANK_ORDER` (Python's `RANK_ORDER.index(rank)`). -/
def rankIdx : CreatorRank → Nat
  | SUB5 => 0
  | LTN => 1
  | MTN => 2
  | HTN => 3
  | CHADLITE => 4
  | CHAD => 5

/-- Function `determine_rank` from `src/utils.py`: scan `RANK_ORDER`, keeping the last
rank whose threshold is satisfied, starting from `SUB5`. -/
def determine_rank (lifetime_views : Int) : CreatorRank :=
  RANK_ORDER.foldl
    (fun rank r => if lifetime_views ≥ RANK_THRESHOLDS r then r else rank)
    SUB5

/-- Function `get_next_rank` from `src/utils.py`: the entry following `current_rank`
in `RANK_ORDER`, or `none` at the maximum rank. -/
def get_next_rank (current_rank : CreatorRank) : Option CreatorRank :=
  let idx := RANK_ORDER.indexOf current_rank
  if idx < RANK_ORDER.length - 1 then RANK_ORDER.get? (idx + 1) else none

/-- Function `views_to_next_rank` from `src/utils.py`: views remaining to unlock the
next rank, clamped at zero; `none` at the maximum rank. -/
def views_to_next_rank (current_rank : CreatorRank) (lifetime_views : Int) :
    Option Int :=
  match get_next_rank current_rank with
  | none => none
  | some next_rank => some (max 0 (RANK_THRESHOLDS next_rank - lifetime_views))

/-- The `PaymentCalculation` dataclass from `src/utils.py`. -/
structure PaymentCalculation where
  base_payment : Int
  bonus_amount : Int
  total_payment : Int
  needs_custom_bonus : Bool
  tiers : Nat
  eligible : Bool
  bonuses : List (Int × Int)
  rank : CreatorRank
  per_video_cap : Int
deriving DecidableEq, Repr

/-- One step of the tier-walking loop in `calculate_payment`: the running
state is (base_payment, bonuses, bonus_amount). -/
def payStep (views : Int) (acc : Int × List (Int × Int) × Int)
    (ta : Int × Int) : Int × List (Int × Int) × Int :=
  if views ≥ ta.1 then
    if ta.1 = 20000 then (ta.2, acc.2.1, acc.2.2)
    else (acc.1, acc.2.1 ++ [ta], acc.2.2 + ta.2)
  else acc

/-- Function `calculate_payment` from `src/utils.py`. -/
def calculate_payment (views : Int) (rank : CreatorRank) : PaymentCalculation :=
  if views < 20000 then
    { base_payment := 0
      bonus_amount := 0
      total_payment := 0
      needs_custom_bonus := false
      tiers := 0
      eligible := false
      bonuses := []
      rank := rank
      per_video_cap := RANK_CAPS rank }
  else
    let tiers := RANK_PAYOUT_TIERS rank
    let res := tiers.foldl (payStep views) (0, [], 0)
    { base_payment := res.1
      bonus_amount := res.2.2
      total_payment := res.1 + res.2.2
      needs_custom_bonus := false
      tiers := (tiers.filter (fun ta => views ≥ ta.1)).length
      eligible := true
      bonuses := res.2.1
      rank := rank
      per_video_cap := RANK_CAPS rank }

/-- Payment status states (`PaymentStatus` in `src/database.py`). -/
inductive PaymentStatus where
  | PENDING
  | ELIGIBLE
  | PAID
  | REJECTED
deriving DecidableEq, Repr, BEq

open PaymentStatus

/-- The `ViewHistoryEntry` dataclass from `src/database.py`; `date` is modelled
as the timestamp it is formatted from. -/
structure ViewHistoryEntry where
  views : Int
  date : Int
  note : String
deriving DecidableEq, Repr

/-- The `VideoRecord` dataclass from `src/database.py` (the SQLite row it
mirrors).  Timestamps are `Int` seconds; nullable columns are `Option`. -/
structure VideoRecord where
  video_id : String
  url : String
  creator_name : String
  view_count : Int
  view_count_history : List ViewHistoryEntry
  date_posted : Option Int
  date_eligible : Option Int
  date_submitted : Int
  base_payment : Int
  bonus_amount : Int
  total_payment : Int
  needs_custom_bonus : Bool
  payment_status : PaymentStatus
  rejection_reason : Option String
  date_paid : Option Int
  notes : Option String
deriving DecidableEq, Repr

/-- The `CreatorProfile` dataclass from `src/database.py`. -/
structure CreatorProfile where
  name : String
  lifetime_views : Int
  current_rank : CreatorRank
  discord_user_id : Option Int
  video_count : Int
  total_paid : Int
  unpaid_amount : Int
deriving DecidableEq, Repr

/-- The `videos` table: a list of rows (`video_id` is declared UNIQUE). -/
abbrev VideoDB := List VideoRecord

/-- SQL `LOWER(...)` (ASCII lowercasing), modelled on the string's
character list. -/
def sqlLower (s : String) : List Char :=
  s.data.map Char.toLower

/-- Method `VideoRecord.is_eligible` from `src/database.py`: false when
`date_eligible` is null, otherwise `now >= date_eligible`. -/
def VideoRecord.is_eligible (r : VideoRecord) (now : Int) : Bool :=
  match r.date_eligible with
  | none => false
  | some d => decide (now ≥ d)

/-- Query `Database.get_video_by_id`: `SELECT * FROM videos WHERE video_id = ?`. -/
def get_video_by_id (db : VideoDB) (video_id : String) : Option VideoRecord :=
  List.find? (fun r => r.video_id == video_id) db

/-- Method `Database.add_video` from `src/database.py`: builds the inserted row.
`date_eligible = date_posted + 48h`; the initial status is `ELIGIBLE` when
the current time has passed `date_eligible` and `view_count >= 20000`,
otherwise `PENDING`. -/
def add_video (now : Int) (video_id url creator_name : String)
    (view_count : Int) (date_posted : Int)
    (base_payment bonus_amount total_payment : Int)
    (needs_custom_bonus : Bool) (notes : Option String) : VideoRecord :=
  let date_eligible := date_posted + 48 * 3600
  let status :=
    if now ≥ date_eligible ∧ view_count ≥ 20000 then ELIGIBLE else PENDING
  { video_id := video_id
    url := url
    creator_name := creator_name
    view_count := view_count
    view_count_history := [⟨view_count, now, "Initial submission"⟩]
    date_posted := some date_posted
    date_eligible := some date_eligible
    date_submitted := now
    base_payment := base_payment
    bonus_amount := bonus_amount
    total_payment := total_payment
    needs_custom_bonus := needs_custom_bonus
    payment_status := status
    rejection_reason := none
    date_paid := none
    notes := notes }

/-- The status recomputation inside `Database.update_views`: a `PENDING`
record becomes `ELIGIBLE` when its eligibility date has passed and the new
view count is at least 20000; every other status is kept. -/
def update_views_status (now : Int) (existing : VideoRecord)
    (new_views : Int) : PaymentStatus :=
  if existing.payment_status = PENDING ∧
      existing.is_eligible now = true ∧ new_views ≥ 20000 then
    ELIGIBLE
  else existing.payment_status

/-- Method `Database.update_views` from `src/database.py`: look up the record,
append a history entry, recompute the status, and write the row back. -/
def update_views (now : Int) (db : VideoDB) (video_id : String)
    (new_views : Int) (base_payment bonus_amount total_payment : Int)
    (needs_custom_bonus : Bool) : Option VideoRecord × VideoDB :=
  match get_video_by_id db video_id with
  | none => (none, db)
  | some existing =>
    let status := update_views_status now existing new_views
    let db2 := db.map fun r =>
      if r.video_id = video_id then
        { r with
          view_count := new_views
          view_count_history :=
            r.view_count_history ++ [⟨new_views, now, "Updated"⟩]
          base_payment := base_payment
          bonus_amount := bonus_amount
          total_payment := total_payment
          needs_custom_bonus := needs_custom_bonus
          payment_status := status }
      else r
    (get_video_by_id db2 video_id, db2)

/-- Method `Database.mark_paid` from `src/database.py`:
`UPDATE videos SET payment_status = 'paid', date_paid = now WHERE video_id = ?`,
returning `none` when no row matched. -/
def db_mark_paid (now : Int) (db : VideoDB) (video_id : String) :
    Option VideoRecord × VideoDB :=
  let db2 := db.map fun r =>
    if r.video_id = video_id then
      { r with payment_status := PAID, date_paid := some now }
    else r
  if db.all (fun r => !(r.video_id == video_id)) then (none, db)
  else (get_video_by_id db2 video_id, db2)

/-- Method `Database.reject_payment` from `src/database.py`:
`UPDATE videos SET payment_status = 'rejected', rejection_reason = ? WHERE
video_id = ?`, returning `none` when no row matched. -/
def db_reject_payment (db : VideoDB) (video_id : String) (reason : String) :
    Option VideoRecord × VideoDB :=
  let db2 := db.map fun r =>
    if r.video_id = video_id then
      { r with payment_status := REJECTED, rejection_reason := some reason }
    else r
  if db.all (fun r => !(r.video_id == video_id)) then (none, db)
  else (get_video_by_id db2 video_id, db2)

/-- Per-row effect of `Database.update_pending_to_eligible`: the SQL
`UPDATE ... WHERE payment_status = 'pending' AND date_eligible <= now AND
view_count >= 20000` (a NULL `date_eligible` never satisfies the
comparison). -/
def sweep_row (now : Int) (r : VideoRecord) : VideoRecord :=
  if r.payment_status = PENDING ∧
      (match r.date_eligible with
       | some d => decide (d ≤ now)
       | none => false) = true ∧
      r.view_count ≥ 20000 then
    { r with payment_status := ELIGIBLE }
  else r

/-- Method `Database.update_pending_to_eligible` from `src/database.py`: apply
`sweep_row` to every row; the returned count is the number of rows the
WHERE clause matched. -/
def update_pending_to_eligible (now : Int) (db : VideoDB) : Nat × VideoDB :=
  ((db.filter fun r => decide (sweep_row now r ≠ r)).length,
   db.map (sweep_row now))

/-- Outcome of the `markpaid` chat command in `src/bot.py`. -/
inductive MarkPaidOutcome where
  | notFound
  | alreadyPaid (date_paid : Option Int)
  | notConfirmed
  | paid (updated : Option VideoRecord)
deriving DecidableEq, Repr

/-- The `markpaid` command handler from `src/bot.py` (`mark_paid`,
lines 882-929): not-found and already-paid are rejected before the
confirmation prompt; only a confirmed action reaches
`Database.mark_paid`.  The interactive confirmation is the `confirmed`
argument. -/
def bot_mark_paid (now : Int) (db : VideoDB) (video_id : String)
    (confirmed : Bool) : MarkPaidOutcome × VideoDB :=
  match get_video_by_id db video_id with
  | none => (MarkPaidOutcome.notFound, db)
  | some existing =>
    if existing.payment_status = PAID then
      (MarkPaidOutcome.alreadyPaid existing.date_paid, db)
    else if confirmed then
      let res := db_mark_paid now db video_id
      (MarkPaidOutcome.paid res.1, res.2)
    else (MarkPaidOutcome.notConfirmed, db)

/-- Outcome of the `reject` chat command in `src/bot.py`. -/
inductive RejectOutcome where
  | notFound
  | notConfirmed
  | rejected (updated : Option VideoRecord)
deriving DecidableEq, Repr

/-- The `reject` command handler from `src/bot.py` (`reject_payment`,
lines 932-979): only not-found aborts; there is no check of the current
payment status before `Database.reject_payment` runs. -/
def bot_reject_payment (db : VideoDB) (video_id : String) (reason : String)
    (confirmed : Bool) : RejectOutcome × VideoDB :=
  match get_video_by_id db video_id with
  | none => (RejectOutcome.notFound, db)
  | some _ =>
    if confirmed then
      let res := db_reject_payment db video_id reason
      (RejectOutcome.rejected res.1, res.2)
    else (RejectOutcome.notConfirmed, db)

/-- Method `Database.get_or_create_creator` from `src/database.py`: aggregate over
the rows whose `creator_name` matches case-insensitively and whose status is
not `rejected`; the paid/unpaid sums follow the SQL
`SUM(CASE WHEN payment_status = ... THEN total_payment ELSE 0 END)`.
The upsert only writes back `rank`/`lifetime_views`; `discord_user_id` is
whatever the creators table already holds, passed in here. -/
def get_or_create_creator (db : VideoDB) (creator_name : String)
    (discord_user_id : Option Int) : CreatorProfile :=
  let vids := db.filter fun r =>
    sqlLower r.creator_name == sqlLower creator_name &&
    !(r.payment_status == REJECTED)
  let lifetime_views := (vids.map (fun r => r.view_count)).sum
  let video_count := vids.length
  let total_paid := (vids.map (fun r =>
    if r.payment_status = PAID then r.total_payment else 0)).sum
  let unpaid_amount := (vids.map (fun r =>
    if r.payment_status = ELIGIBLE then r.total_payment else 0)).sum
  { name := creator_name
    lifetime_views := lifetime_views
    current_rank := determine_rank lifetime_views
    discord_user_id := discord_user_id
    video_count := video_count
    total_paid := total_paid
    unpaid_amount := unpaid_amount }

/-- A concrete already-paid record, used to exercise the lifecycle
operations on terminal states. -/
def exPaidRecord : VideoRecord :=
  { video_id := "v1"
    url := "https://www.tiktok.com/@alice/video/1"
    creator_name := "alice"
    view_count := 25000
    view_count_history := [⟨25000, 0, "Initial submission"⟩]
    date_posted := some 0
    date_eligible := some 172800
    date_submitted := 0
    base_payment := 20
    bonus_amount := 0
    total_payment := 20
    needs_custom_bonus := false
    payment_status := PaymentStatus.PAID
    rejection_reason := none
    date_paid := some 200000
    notes := none }

/-- A concrete rejected record. -/
def exRejectedRecord : VideoRecord :=
  { exPaidRecord with
    video_id := "v2"
    payment_status := PaymentStatus.REJECTED
    rejection_reason := some "botted"
    date_paid := none }

/-- A concrete eligible (not yet paid) record. -/
def exEligibleRecord : VideoRecord :=
  { exPaidRecord with
    video_id := "v3"
    payment_status := PaymentStatus.ELIGIBLE
    date_paid := none }

/-- A concrete pending record. -/
def exPendingRecord : VideoRecord :=
  { exPaidRecord with
    video_id := "v4"
    payment_status := PaymentStatus.PENDING
    date_paid := none }

/-- The creator-aggregation scenario: three non-rejected videos with views
10000, 90000 (paid, 20 dollars) and 5000, plus one rejected video whose
views must not be counted. -/
def scenarioDB : VideoDB :=
  [{ exPaidRecord with
      video_id := "s1"
      view_count := 10000
      payment_status := PaymentStatus.PENDING
      total_payment := 0
      date_paid := none },
   { exPaidRecord with
      video_id := "s2"
      view_count := 90000
      payment_status := PaymentStatus.PAID
      total_payment := 20 },
   { exPaidRecord with
      video_id := "s3"
      view_count := 5000
      payment_status := PaymentStatus.PENDING
      total_payment := 0
      date_paid := none },
   { exPaidRecord with
      video_id := "s4"
      view_count := 999999
      payment_status := PaymentStatus.REJECTED
      rejection_reason := some "botted"
      total_payment := 0
      date_paid := none }]

end DeepTone

namespace DeepTone

open CreatorRank PaymentStatus

/-- Sum of a conditional map equals the sum of the map over the filtered
list (relates the SQL `SUM(CASE WHEN p THEN f ELSE 0 END)` to a sum over
the rows satisfying `p`). -/
theorem sum_map_ite_eq_sum_filter {α : Type} (p : α → Prop) [DecidablePred p]
    (f : α → Int) (l : List α) :
    (l.map (fun x => if p x then f x else 0)).sum =
      ((l.filter (fun x => decide (p x))).map f).sum := by
  induction l with
  | nil => simp
  | cons hd tl ih =>
    by_cases h : p hd <;> simp [h, ih]

/-- C2: for every rank and every integer `views < 20000`,
`calculate_payment` returns base 0, bonus 0, total 0, `eligible = false`
and an empty bonus list, uniformly in the rank. -/
theorem calculate_payment_below_floor (views : Int) (rank : CreatorRank)
    (h : views < 20000) :
    (calculate_payment views rank).base_payment = 0 ∧
    (calculate_payment views rank).bonus_amount = 0 ∧
    (calculate_payment views rank).total_payment = 0 ∧
    (calculate_payment views rank).eligible = false ∧
    (calculate_payment views rank).bonuses = [] := by
  simp [calculate_payment, h]

/-- Witness for `calculate_payment_below_floor` at views 19999, rank CHAD. -/
theorem calculate_payment_below_floor_witness :
    (19999 : Int) < 20000 ∧
    (calculate_payment 19999 CHAD).total_payment = 0 ∧
    (calculate_payment 19999 CHAD).eligible = false :=
  ⟨by decide,
   (calculate_payment_below_floor 19999 CHAD (by decide)).2.2.1,
   (calculate_payment_below_floor 19999 CHAD (by decide)).2.2.2.1⟩

/-- C5: `add_video` sets `date_eligible` to `date_posted + 48` hours
exactly, and the initial status is `ELIGIBLE` exactly when the current
time has reached `date_posted + 48h` and the view count is at least
20000, otherwise `PENDING`. -/
theorem add_video_spec (now : Int) (video_id url creator_name : String)
    (view_count date_posted base_payment bonus_amount total_payment : Int)
    (needs_custom_bonus : Bool) (notes : Option String) :
    (add_video now video_id url creator_name view_count date_posted
        base_payment bonus_amount total_payment needs_custom_bonus
        notes).date_eligible = some (date_posted + 48 * 3600) ∧
    ((add_video now video_id url creator_name view_count date_posted
        base_payment bonus_amount total_payment needs_custom_bonus
        notes).payment_status = ELIGIBLE ↔
      (now ≥ date_posted + 48 * 3600 ∧ view_count ≥ 20000)) ∧
    ((add_video now video_id url creator_name view_count date_posted
        base_payment bonus_amount total_payment needs_custom_bonus
        notes).payment_status = PENDING ↔
      ¬(now ≥ date_posted + 48 * 3600 ∧ view_count ≥ 20000)) := by
  refine ⟨rfl, ?_, ?_⟩ <;>
    · simp only [add_video]
      split_ifs with h <;> simp [h] <;> omega

/-- C3: a `markpaid` on a record whose status is already `PAID` is
rejected with the distinguishable already-paid signal carrying the
original paid date, and leaves the database (hence the record's
`date_paid`) unchanged. -/
theorem mark_paid_already_paid (now : Int) (db : VideoDB)
    (video_id : String) (confirmed : Bool) (r : VideoRecord)
    (hfind : get_video_by_id db video_id = some r)
    (hpaid : r.payment_status = PAID) :
    bot_mark_paid now db video_id confirmed =
      (MarkPaidOutcome.alreadyPaid r.date_paid, db) := by
  simp [bot_mark_paid, hfind, hpaid]

/-- Witness for `mark_paid_already_paid` on a one-record database holding
`exPaidRecord`. -/
theorem mark_paid_already_paid_witness :
    bot_mark_paid 300000 [exPaidRecord] "v1" true =
      (MarkPaidOutcome.alreadyPaid (some 200000), [exPaidRecord]) :=
  mark_paid_already_paid 300000 [exPaidRecord] "v1" true exPaidRecord
    (by decide) (by decide)

/-- The threshold of the rank returned by `determine_rank` is satisfied,
for non-negative lifetime views. -/
theorem determine_rank_threshold_le (v : Int) (hv : 0 ≤ v) :
    RANK_THRESHOLDS (determine_rank v) ≤ v := by
  simp only [determine_rank, RANK_ORDER, List.foldl]
  split_ifs <;> simp_all [RANK_THRESHOLDS]

/-- Function `determine_rank` dominates every rank whose threshold is satisfied
(in `RANK_ORDER` position). -/
theorem determine_rank_maximal (v : Int) (r : CreatorRank)
    (hr : RANK_THRESHOLDS r ≤ v) :
    RANK_ORDER.indexOf r ≤ RANK_ORDER.indexOf (determine_rank v) := by
  simp only [determine_rank, RANK_ORDER, List.foldl, RANK_THRESHOLDS]
  rcases r <;> simp only [RANK_THRESHOLDS] at hr <;>
    split_ifs <;> first | decide | (exfalso; omega)

/-- C6: for non-negative lifetime views, `determine_rank` returns the
highest-indexed rank (in `RANK_ORDER`) whose unlock threshold is at most
the views; it is non-decreasing in the views; and it maps 0 to the lowest
tier `SUB5`. -/
theorem determine_rank_spec (v a b : Int) (hv : 0 ≤ v) (ha : 0 ≤ a)
    (hab : a ≤ b) :
    (RANK_THRESHOLDS (determine_rank v) ≤ v ∧
      ∀ r : CreatorRank, RANK_THRESHOLDS r ≤ v →
        RANK_ORDER.indexOf r ≤ RANK_ORDER.indexOf (determine_rank v)) ∧
    RANK_ORDER.indexOf (determine_rank a) ≤
      RANK_ORDER.indexOf (determine_rank b) ∧
    determine_rank 0 = SUB5 := by
  refine ⟨⟨determine_rank_threshold_le v hv, fun r hr =>
    determine_rank_maximal v r hr⟩, ?_, by decide⟩
  exact determine_rank_maximal b (determine_rank a)
    (le_trans (determine_rank_threshold_le a ha) hab)

/-- Witness for `determine_rank_spec` at `v = 150000`, `a = 0`,
`b = 5000000`. -/
theorem determine_rank_spec_witness :
    RANK_THRESHOLDS (determine_rank 150000) ≤ 150000 ∧
    RANK_ORDER.indexOf (determine_rank 0) ≤
      RANK_ORDER.indexOf (determine_rank 5000000) ∧
    determine_rank 0 = SUB5 :=
  ⟨(determine_rank_spec 150000 0 5000000 (by decide) (by decide)
      (by decide)).1.1,
   (determine_rank_spec 150000 0 5000000 (by decide) (by decide)
      (by decide)).2.1,
   (determine_rank_spec 150000 0 5000000 (by decide) (by decide)
      (by decide)).2.2⟩

/-- C8: `get_next_rank` of the highest tier is `none` and
`views_to_next_rank` at the highest tier is `none` for every view count;
for every non-maximal rank there is a next rank, and
`views_to_next_rank` returns the distance to its threshold clamped at
zero, hence never a negative value. -/
theorem next_rank_spec (lifetime_views : Int) (r : CreatorRank)
    (hr : r ≠ CHAD) :
    get_next_rank CHAD = none ∧
    views_to_next_rank CHAD lifetime_views = none ∧
    ∃ next : CreatorRank,
      get_next_rank r = some next ∧
      views_to_next_rank r lifetime_views =
        some (max 0 (RANK_THRESHOLDS next - lifetime_views)) ∧
      ∀ n : Int, views_to_next_rank r lifetime_views = some n → 0 ≤ n := by
  have hchad : get_next_rank CHAD = none := by decide
  refine ⟨hchad, by simp [views_to_next_rank, hchad], ?_⟩
  have hnext : ∃ next : CreatorRank, get_next_rank r = some next := by
    rcases r
    · exact ⟨LTN, by decide⟩
    · exact ⟨MTN, by decide⟩
    · exact ⟨HTN, by decide⟩
    · exact ⟨CHADLITE, by decide⟩
    · exact ⟨CHAD, by decide⟩
    · exact absurd rfl hr
  obtain ⟨next, hn⟩ := hnext
  refine ⟨next, hn, by simp [views_to_next_rank, hn], ?_⟩
  intro n hnn
  simp [views_to_next_rank, hn] at hnn
  rw [← hnn]
  exact le_max_left 0 _

/-- Witness for `next_rank_spec` at rank `SUB5` and 150000 lifetime
views (next threshold 100000 already passed, so the clamp yields 0). -/
theorem next_rank_spec_witness :
    views_to_next_rank CHAD 150000 = none ∧
    get_next_rank SUB5 = some LTN ∧
    views_to_next_rank SUB5 150000 = some 0 := by
  obtain ⟨h1, h2, next, h3, h4, h5⟩ :=
    next_rank_spec 150000 SUB5 (by decide)
  have hnext : next = LTN :=
    Option.some.inj (h3.symm.trans (by decide))
  subst hnext
  refine ⟨h2, h3, ?_⟩
  rw [h4]
  decide

/-- The predicate selecting the bonus entries of the tier walk: the
threshold qualifies and is not the 20000 floor. -/
def bonusPred (views : Int) (ta : Int × Int) : Bool :=
  decide (views ≥ ta.1) && !(ta.1 == 20000)

/-- Characterization of the tier-walking fold of `calculate_payment`:
the bonus list collects, in order, the qualifying tiers whose threshold is
not the 20000 floor, and the bonus amount is their sum; the base payment
is the amount of the last qualifying floor entry (or the seed). -/
theorem payStep_foldl (views : Int) (l : List (Int × Int)) (base : Int)
    (bs : List (Int × Int)) (ba : Int) :
    l.foldl (payStep views) (base, bs, ba) =
      (l.foldl
        (fun b ta => if views ≥ ta.1 ∧ ta.1 = 20000 then ta.2 else b) base,
       bs ++ l.filter (bonusPred views),
       ba + ((l.filter (bonusPred views)).map Prod.snd).sum) := by
  induction l generalizing base bs ba with
  | nil => simp
  | cons hd tl ih =>
    obtain ⟨t, a⟩ := hd
    by_cases hge : views ≥ t
    · by_cases hfl : t = 20000
      · subst hfl
        simp [payStep, bonusPred, hge, ih]
      · simp [payStep, bonusPred, hge, hfl, ih]
        ring
    · simp [payStep, bonusPred, hge, ih]

/-- Unfolding of `calculate_payment` above the floor in terms of the
fold characterization. -/
theorem calculate_payment_of_ge (views : Int) (rank : CreatorRank)
    (h : ¬views < 20000) :
    calculate_payment views rank =
      { base_payment :=
          (RANK_PAYOUT_TIERS rank).foldl
            (fun b ta => if views ≥ ta.1 ∧ ta.1 = 20000 then ta.2 else b) 0
        bonus_amount :=
          (((RANK_PAYOUT_TIERS rank).filter (bonusPred views)).map
            Prod.snd).sum
        total_payment :=
          (RANK_PAYOUT_TIERS rank).foldl
            (fun b ta => if views ≥ ta.1 ∧ ta.1 = 20000 then ta.2 else b) 0 +
          (((RANK_PAYOUT_TIERS rank).filter (bonusPred views)).map
            Prod.snd).sum
        needs_custom_bonus := false
        tiers :=
          ((RANK_PAYOUT_TIERS rank).filter
            (fun ta => decide (views ≥ ta.1))).length
        eligible := true
        bonuses := (RANK_PAYOUT_TIERS rank).filter (bonusPred views)
        rank := rank
        per_video_cap := RANK_CAPS rank } := by
  simp [calculate_payment, h, payStep_foldl]

/-- Above the floor, the base-payment fold yields the amount of the
unique floor entry, which is 20 for every rank. -/
theorem base_fold_eq_twenty (views : Int) (rank : CreatorRank)
    (h : views ≥ 20000) :
    (RANK_PAYOUT_TIERS rank).foldl
      (fun b ta => if views ≥ ta.1 ∧ ta.1 = 20000 then ta.2 else b) 0 =
        20 := by
  rcases rank <;> simp [RANK_PAYOUT_TIERS, List.foldl, h]

/-- Every rank's tier table contains the floor entry `(20000, 20)`. -/
theorem floor_entry_mem (rank : CreatorRank) :
    ((20000 : Int), (20 : Int)) ∈ RANK_PAYOUT_TIERS rank := by
  rcases rank <;> decide

/-- At views exactly 20000 no bonus entry qualifies, for any rank. -/
theorem bonus_filter_at_floor (rank : CreatorRank) :
    (RANK_PAYOUT_TIERS rank).filter (bonusPred 20000) = [] := by
  rcases rank <;> decide

/-- C1: for every rank and `views ≥ 20000`, `calculate_payment` walks the
rank's tier table: the 20000-floor entry's amount becomes `base_payment`,
the bonus list is exactly the other qualifying entries in table order,
`bonus_amount` is their sum, `total_payment = base_payment + bonus_amount`,
every bonus threshold is at most `views`, `eligible` is true, and at
exactly 20000 views the bonus list is empty and the total is the base
alone. -/
theorem calculate_payment_tier_walk (views : Int) (rank : CreatorRank)
    (h : views ≥ 20000) :
    (calculate_payment views rank).eligible = true ∧
    (20000, (calculate_payment views rank).base_payment) ∈
      RANK_PAYOUT_TIERS rank ∧
    (calculate_payment views rank).bonuses =
      (RANK_PAYOUT_TIERS rank).filter (bonusPred views) ∧
    (calculate_payment views rank).bonus_amount =
      ((calculate_payment views rank).bonuses.map Prod.snd).sum ∧
    (calculate_payment views rank).total_payment =
      (calculate_payment views rank).base_payment +
        (calculate_payment views rank).bonus_amount ∧
    (∀ ta ∈ (calculate_payment views rank).bonuses, ta.1 ≤ views) ∧
    (views = 20000 → (calculate_payment views rank).bonuses = [] ∧
      (calculate_payment views rank).total_payment =
        (calculate_payment views rank).base_payment) := by
  have hnot : ¬views < 20000 := by omega
  rw [calculate_payment_of_ge views rank hnot]
  refine ⟨rfl, ?_, rfl, rfl, rfl, ?_, ?_⟩
  · rw [base_fold_eq_twenty views rank h]
    exact floor_entry_mem rank
  · intro ta hta
    have hmem := List.of_mem_filter hta
    simp only [bonusPred, Bool.and_eq_true, decide_eq_true_eq] at hmem
    exact hmem.1
  · intro hv
    subst hv
    rw [bonus_filter_at_floor rank]
    simp

/-- Witness for `calculate_payment_tier_walk` at 150000 views, rank MTN
(the spec scenario: base 20, bonuses `[(100000, 25)]`, total 45). -/
theorem calculate_payment_tier_walk_witness :
    (calculate_payment 150000 MTN).eligible = true ∧
    (20000, (calculate_payment 150000 MTN).base_payment) ∈
      RANK_PAYOUT_TIERS MTN ∧
    (calculate_payment 150000 MTN).total_payment =
      (calculate_payment 150000 MTN).base_payment +
        (calculate_payment 150000 MTN).bonus_amount :=
  ⟨(calculate_payment_tier_walk 150000 MTN (by decide)).1,
   (calculate_payment_tier_walk 150000 MTN (by decide)).2.1,
   (calculate_payment_tier_walk 150000 MTN (by decide)).2.2.2.2.1⟩

/-- The amounts of each rank's payout tiers sum exactly to that rank's
per-video cap. -/
theorem tier_amounts_sum_to_cap (rank : CreatorRank) :
    ((RANK_PAYOUT_TIERS rank).map Prod.snd).sum = RANK_CAPS rank := by
  rcases rank <;> decide

/-- The bonus-entry amounts of a tier list with nonnegative amounts sum
to at most the amounts of the whole list. -/
theorem bonus_sum_le (views : Int) (l : List (Int × Int))
    (hnn : ∀ a ∈ l.map Prod.snd, (0 : Int) ≤ a) :
    ((l.filter (bonusPred views)).map Prod.snd).sum ≤
      (l.map Prod.snd).sum :=
  List.Sublist.sum_le_sum ((List.filter_sublist l).map Prod.snd) hnn

/-- A base of 20 plus the qualifying bonus amounts of a tier list headed
by the floor entry is at most 20 plus all the tail amounts. -/
theorem total_le_of_cons (views : Int) (rest : List (Int × Int))
    (hnn : ∀ a ∈ rest.map Prod.snd, (0 : Int) ≤ a) :
    20 + (((((20000 : Int), (20 : Int)) :: rest).filter
        (bonusPred views)).map Prod.snd).sum ≤
      20 + (rest.map Prod.snd).sum := by
  have hf : bonusPred views (20000, 20) = false := by simp [bonusPred]
  rw [List.filter_cons, hf]
  simpa using bonus_sum_le views rest hnn

/-- C9: `calculate_payment` never pays more than the rank's per-video cap
(`RANK_CAPS`), for every integer view count, because each rank's tier
amounts sum exactly to its cap; no clamping happens in the function. -/
theorem total_payment_within_cap (views : Int) (rank : CreatorRank) :
    (calculate_payment views rank).total_payment ≤ RANK_CAPS rank ∧
    ((RANK_PAYOUT_TIERS rank).map Prod.snd).sum = RANK_CAPS rank := by
  refine ⟨?_, tier_amounts_sum_to_cap rank⟩
  by_cases hv : views < 20000
  · simp only [calculate_payment, hv, if_true]
    rcases rank <;> decide
  · rw [calculate_payment_of_ge views rank hv]
    have h20 : views ≥ (20000 : Int) := by omega
    rw [base_fold_eq_twenty views rank h20]
    rcases rank <;>
      · simp only [RANK_PAYOUT_TIERS, RANK_CAPS]
        exact le_trans (total_le_of_cons views _ (by decide))
          (le_of_eq (by decide))

/-- C7: `get_or_create_creator` aggregates case-insensitively over the
creator's non-rejected records only: `lifetime_views` sums their
`view_count`, `video_count` counts them, `total_paid` sums
`total_payment` over paid records, `unpaid_amount` sums `total_payment`
over eligible records, and rejected records are excluded from the
aggregated row set. -/
theorem creator_aggregate_spec (db : VideoDB) (creator_name : String)
    (discord_user_id : Option Int) :
    (get_or_create_creator db creator_name discord_user_id).lifetime_views =
      ((db.filter fun r =>
          sqlLower r.creator_name == sqlLower creator_name &&
          !(r.payment_status == REJECTED)).map fun r => r.view_count).sum ∧
    (get_or_create_creator db creator_name discord_user_id).video_count =
      (db.filter fun r =>
          sqlLower r.creator_name == sqlLower creator_name &&
          !(r.payment_status == REJECTED)).length ∧
    (get_or_create_creator db creator_name discord_user_id).total_paid =
      ((((db.filter fun r =>
            sqlLower r.creator_name == sqlLower creator_name &&
            !(r.payment_status == REJECTED)).filter fun r =>
              decide (r.payment_status = PAID)).map
                fun r => r.total_payment)).sum ∧
    (get_or_create_creator db creator_name discord_user_id).unpaid_amount =
      ((((db.filter fun r =>
            sqlLower r.creator_name == sqlLower creator_name &&
            !(r.payment_status == REJECTED)).filter fun r =>
              decide (r.payment_status = ELIGIBLE)).map
                fun r => r.total_payment)).sum ∧
    ∀ r ∈ db, r.payment_status = REJECTED →
      ¬r ∈ (db.filter fun r =>
        sqlLower r.creator_name == sqlLower creator_name &&
        !(r.payment_status == REJECTED)) := by
  refine ⟨rfl, rfl, ?_, ?_, ?_⟩
  · simp only [get_or_create_creator]
    exact sum_map_ite_eq_sum_filter _ _ _
  · simp only [get_or_create_creator]
    exact sum_map_ite_eq_sum_filter _ _ _
  · intro r hr hrej hmem
    have hcond := List.of_mem_filter hmem
    rw [hrej, show (REJECTED == REJECTED) = true from rfl] at hcond
    simp at hcond

/-- Witness for `creator_aggregate_spec` on the scenario database, looked
up with different letter case: 105000 lifetime views (the rejected
999999 excluded), 3 videos, 20 paid, and the rejected row excluded. -/
theorem creator_aggregate_spec_witness :
    (get_or_create_creator scenarioDB "Alice" none).lifetime_views =
      105000 ∧
    (get_or_create_creator scenarioDB "Alice" none).video_count = 3 ∧
    (get_or_create_creator scenarioDB "Alice" none).total_paid = 20 ∧
    ¬(scenarioDB.get ⟨3, by decide⟩) ∈ (scenarioDB.filter fun r =>
      sqlLower r.creator_name == sqlLower "Alice" &&
      !(r.payment_status == REJECTED)) := by
  obtain ⟨h1, h2, h3, h4, h5⟩ :=
    creator_aggregate_spec scenarioDB "Alice" none
  refine ⟨h1.trans (by decide), h2.trans (by decide),
    h3.trans (by decide), ?_⟩
  exact h5 (scenarioDB.get ⟨3, by decide⟩) (by decide) (by decide)

/-- C10: the status written by `update_views` and the per-row effect of
the pending-to-eligible sweep move a record's status only in the
direction `PENDING → ELIGIBLE`, and only when the eligibility date has
passed and the view count is at least 20000; in particular an `ELIGIBLE`
record never returns to `PENDING` — not even when `update_views` carries
a new view count below 20000. -/
theorem pending_to_eligible_only (now new_views : Int) (r : VideoRecord)
    (db : VideoDB) :
    (update_views_status now r new_views = r.payment_status ∨
      (r.payment_status = PENDING ∧
        update_views_status now r new_views = ELIGIBLE ∧
        r.is_eligible now = true ∧ new_views ≥ 20000)) ∧
    (r.payment_status = ELIGIBLE →
      update_views_status now r new_views = ELIGIBLE) ∧
    ((sweep_row now r).payment_status = r.payment_status ∨
      (r.payment_status = PENDING ∧
        (sweep_row now r).payment_status = ELIGIBLE ∧
        (∃ d, r.date_eligible = some d ∧ d ≤ now) ∧
        r.view_count ≥ 20000)) ∧
    (r.payment_status = ELIGIBLE →
      (sweep_row now r).payment_status = ELIGIBLE) ∧
    (update_pending_to_eligible now db).2 = db.map (sweep_row now) := by
  refine ⟨?_, ?_, ?_, ?_, rfl⟩
  · unfold update_views_status
    split_ifs with h
    · exact Or.inr ⟨h.1, rfl, h.2.1, h.2.2⟩
    · exact Or.inl rfl
  · intro he
    unfold update_views_status
    split_ifs with h
    · rfl
    · exact he
  · unfold sweep_row
    split_ifs with h
    · obtain ⟨hp, hd, hv⟩ := h
      refine Or.inr ⟨hp, rfl, ?_, hv⟩
      cases hde : r.date_eligible with
      | none => rw [hde] at hd; simp at hd
      | some d =>
        rw [hde] at hd
        simp at hd
        exact ⟨d, rfl, hd⟩
    · exact Or.inl rfl
  · intro he
    unfold sweep_row
    split_ifs with h
    · rfl
    · exact he

/-- Witness for `pending_to_eligible_only`: an `ELIGIBLE` record stays
`ELIGIBLE` under both operations, even with a new view count of 100. -/
theorem pending_to_eligible_only_witness :
    update_views_status 300000 exEligibleRecord 100 = ELIGIBLE ∧
    (sweep_row 300000 exEligibleRecord).payment_status = ELIGIBLE :=
  ⟨(pending_to_eligible_only 300000 100 exEligibleRecord []).2.1
      (by decide),
   (pending_to_eligible_only 300000 100 exEligibleRecord []).2.2.2.1
      (by decide)⟩

/-- C4 counterexample: `PAID` and `REJECTED` are not terminal under all
four listed operations.  The `reject` command (which never checks the
current status) moves a `PAID` record to `REJECTED`, and the `markpaid`
command (which only guards against records already `PAID`) moves a
`REJECTED` record to `PAID`. -/
theorem terminal_states_counterexample :
    exPaidRecord.payment_status = PAID ∧
    ((bot_reject_payment [exPaidRecord] "v1" "botted" true).2.map
      fun r => r.payment_status) = [REJECTED] ∧
    exRejectedRecord.payment_status = REJECTED ∧
    ((bot_mark_paid 300000 [exRejectedRecord] "v2" true).2.map
      fun r => r.payment_status) = [PAID] := by
  refine ⟨rfl, ?_, rfl, ?_⟩ <;> decide

/-- C4 amended: `PAID` and `REJECTED` are preserved by `update_views` and
by the pending-to-eligible sweep, and a `markpaid` on an already-`PAID`
record is rejected leaving the database unchanged; `reject` and
`markpaid` do however still move `PAID → REJECTED` and
`REJECTED → PAID` respectively. -/
theorem terminal_states_amended (now new_views : Int) (r : VideoRecord)
    (db : VideoDB) (video_id : String) (confirmed : Bool)
    (hterm : r.payment_status = PAID ∨ r.payment_status = REJECTED) :
    update_views_status now r new_views = r.payment_status ∧
    (sweep_row now r).payment_status = r.payment_status ∧
    (get_video_by_id db video_id = some r → r.payment_status = PAID →
      bot_mark_paid now db video_id confirmed =
        (MarkPaidOutcome.alreadyPaid r.date_paid, db)) := by
  refine ⟨?_, ?_, ?_⟩
  · unfold update_views_status
    split_ifs with h
    · rcases hterm with h1 | h1 <;> rw [h1] at h <;> simp at h
    · rfl
  · unfold sweep_row
    split_ifs with h
    · rcases hterm with h1 | h1 <;> rw [h1] at h <;> simp at h
    · rfl
  · intro hf hp
    simp [bot_mark_paid, hf, hp]

/-- Witness for `terminal_states_amended` at the concrete paid record. -/
theorem terminal_states_amended_witness :
    update_views_status 300000 exPaidRecord 100 = PAID ∧
    (sweep_row 300000 exPaidRecord).payment_status = PAID := by
  obtain ⟨h1, h2, h3⟩ :=
    terminal_states_amended 300000 100 exPaidRecord [exPaidRecord] "v1"
      true (Or.inl (by decide))
  exact ⟨h1.trans (by decide), h2.trans (by decide)⟩

end DeepTone
